import Mathlib

/-!
Verification development for the CNC robot motion-control core
(stepper engine `core/src/Stepper.c`, axis layer `core/src/Axis.c`,
configuration loader `control/src/config.c`).

The C sources are shallowly embedded: every Lean definition below mirrors one
C function or data structure, with machine integers modelled as `Nat`/`Int`
(no arithmetic here approaches the 32-bit range, except where noted in
comments) and in-place mutation modelled as explicit state passing.
Asynchronous inputs (another thread setting the `stop` flag of a motor while the
pulser runs) are modelled as explicit environment functions.
-/

namespace CNCRobot

/-! ## Stepper data model (`Stepper.h`, `struct stepper`)

Fields not represented: the GPIO pin handles, the name string, and the
synchronisation primitives (mutexes / condition variables), none of which the
verified properties mention.  `busy` models `shared_mutex != NULL`, the
condition tested by `stepper_is_busy`.  The absolute direction enum
(`DIRECTION_COUNTERCLOCKWISE = 0`, `DIRECTION_CLOCKWISE = 1`) is modelled as
`Bool` (`false`/`true`). -/
structure Stepper where
  posDirection : Bool
  currDirection : Bool
  halfPeriod : Nat
  microstepsPerRotation : Nat
  steps : Int
  busy : Bool
deriving DecidableEq, Repr

instance : Inhabited Stepper := ⟨⟨false, false, 0, 0, 0, false⟩⟩

/-- `MOTOR_LIST_SIZE_MAX` from `Stepper.h`. -/
def MOTOR_LIST_SIZE_MAX : Nat := 8

/-- `MAX_PPS` from `Stepper.c`. -/
def MAX_PPS : Nat := 4160

/-- The per-motor update done by `stepper_set_speed_multiple`:
`motors[i]->half_period = 500000/pps;` (C unsigned division). -/
def updSpeed (pps : Nat) (m : Stepper) : Stepper :=
  { m with halfPeriod := 500000 / pps }

/-- The `for` loop of `stepper_set_speed_multiple` (Stepper.c:546-560).  For
each motor, first the busy check (`goto exit` with `retval` still `-1`), then
the in-place speed update.  The returned list is the motor array after the
call: on early exit the motors already visited keep their new `half_period`. -/
def setSpeedLoop (pps : Nat) : List Stepper → Int × List Stepper
  | [] => (0, [])
  | m :: rest =>
    if m.busy then (-1, m :: rest)
    else
      let r := setSpeedLoop pps rest
      (r.1, updSpeed pps m :: r.2)

/-- `stepper_set_speed_multiple` (Stepper.c:524-566).  The `count` argument
always equals the length of the motor array in valid calls and is modelled as
such; the `motors == NULL` and `motors[i] == NULL` checks have no counterpart
for a Lean list value. -/
def stepper_set_speed_multiple (motors : List Stepper) (pps : Nat) :
    Int × List Stepper :=
  if pps = 0 then (-1, motors)
  else if motors.length = 0 ∨ motors.length > MOTOR_LIST_SIZE_MAX then (-1, motors)
  else
    -- Limit the speed if it exceeds maximum supported value
    let pps2 := if pps > MAX_PPS then MAX_PPS else pps
    setSpeedLoop pps2 motors

/-- `struct stepper_req` (Stepper.c:14-20): the fields relevant to the
verified properties.  `count` equals `motorList.length`; the GPIO bulk, the
waiting-motor back reference and the shared mutex are not represented. -/
structure StepperReq where
  motorList : List Stepper
  reqSteps : Nat
deriving DecidableEq, Repr

/-- `stepper_step_multiple` (Stepper.c:595-632).  Returns the C status and the
request created (if any).  Allocation and GPIO bulk-reservation failures inside
`stepper_create_new_request` are environment failures and are modelled as
succeeding; `count` is modelled as the list length (the C `int count` is taken
from callers that pass the array length). -/
def stepper_step_multiple (motors : List Stepper) (steps : Nat) :
    Int × Option StepperReq :=
  if steps = 0 then (-1, none)
  else if motors.length = 0 ∨ motors.length > MOTOR_LIST_SIZE_MAX then (-1, none)
  else
    match motors with
    | [] => (-1, none)  -- unreachable: length 0 was rejected above
    | m0 :: _ =>
      -- Check if a new request can be assigned: stepper_is_busy(motors[0])
      if m0.busy then (-1, none)
      else (0, some ⟨motors, steps⟩)

/-! ## The pulser routine (`motor_pulser`, Stepper.c:212-269)

Only the do-while pulse loop (lines 231-248) mutates the step accumulators.
The `stop` flags are `volatile` and written by other threads; the value the
loop reads for motor `i` on its `t`-th iteration is supplied by an environment
function `stops t i`.  The GPIO pulse itself and the two half-period sleeps
have no effect on the modelled state. -/

/-- The per-iteration accumulator update for a single motor
(Stepper.c:241-244): `if(node->curr_direction == node->pos_direction)
node->steps++; else node->steps--;`. -/
def pulseOne (m : Stepper) : Stepper :=
  if m.currDirection = m.posDirection then { m with steps := m.steps + 1 }
  else { m with steps := m.steps - 1 }

/-- The per-iteration update of every motor in the motor list of the request. -/
def pulseStep (ms : List Stepper) : List Stepper := ms.map pulseOne

/-- `stop |= node->stop` folded over the `num_motors` motors of the request
(Stepper.c:239-247), with `stops t i` the value that the `stop` flag of motor `i` has when
read on iteration `t`. -/
def foldStops (stops : Nat → Nat → Bool) (t k : Nat) : Bool :=
  (List.range k).any fun i => stops t i

/-- The do-while pulse loop (Stepper.c:231-248).  `n` is the current value of
`request->req_steps`; the loop body always runs once, then repeats while
`--req_steps && !stop`.  `stepper_step_multiple` rejects `steps == 0`, so the
loop is only ever entered with `n ≥ 1` (with `n = 0` the C `--` would wrap the
unsigned counter; that unreachable case is modelled as an immediate return). -/
def motorPulserRun (stops : Nat → Nat → Bool) : Nat → Nat → List Stepper →
    List Stepper
  | _, 0, ms => ms
  | t, n + 1, ms =>
    let ms2 := pulseStep ms
    let stop := foldStops stops t ms.length
    if n = 0 || stop then ms2
    else motorPulserRun stops (t + 1) n ms2

/-! ## Axis layer (`Axis.h`, `Axis.c`) -/

/-- `struct axis` (Axis.h:28-35).  `position` and `speed` are unused by the
verified operations and omitted; `mm_per_rotation` is a C double but is always
assigned from an `unsigned int` at `axis_init`, hence a `Nat` here. -/
structure AxisSt where
  motors : List Stepper
  mmPerRotation : Nat
  resetDir : Bool
deriving DecidableEq, Repr

/-- `axis->motors[0]->microsteps_per_rotation`, the microstep count of the first motor, used by both unit conversions. -/
def microsteps0 (a : AxisSt) : Nat := a.motors.headI.microstepsPerRotation

/-- `mm_to_steps` (Axis.c:19-22):
`(unsigned int)(mm * (double)axis->motors[0]->microsteps_per_rotation /
axis->mm_per_rotation)`.  The distance is modelled as a rational; the C cast
from `double` to `unsigned int` truncates toward zero, which on the
nonnegative arguments supplied by every caller is the floor.  The rational
model agrees with the double computation whenever the latter is exact (as it
is at every concrete input used below). -/
def mm_to_steps (a : AxisSt) (mm : ℚ) : Nat :=
  (⌊mm * (microsteps0 a : ℚ) / (a.mmPerRotation : ℚ)⌋).toNat

/-- The conversion as the specification words it:
`steps = round(mm × microsteps_per_rotation / mm_per_rotation)`, rounding to
the nearest integer.  Written from the spec, to be compared with
`mm_to_steps`, the definition taken from the source. -/
def mm_to_steps_specRound (a : AxisSt) (mm : ℚ) : ℤ :=
  round (mm * (microsteps0 a : ℚ) / (a.mmPerRotation : ℚ))

/-- `stepper_set_direction_rel` (Stepper.c:459-478) on the success path (the
motor idle, GPIO write succeeding): the direction line and `curr_direction`
become `pos_direction` for `DIRECTION_POSITIVE` and its opposite for
`DIRECTION_NEGATIVE`.  `positive` is `true` for `DIRECTION_POSITIVE`. -/
def stepperSetDirectionRel (m : Stepper) (positive : Bool) : Stepper :=
  { m with currDirection := if positive then m.posDirection else !m.posDirection }

/-- `axis_set_direction` (Axis.c:141-162) on the success path: fan the new
relative direction out to every motor of the axis. -/
def axis_set_direction (a : AxisSt) (positive : Bool) : AxisSt :=
  { a with motors := a.motors.map fun m => stepperSetDirectionRel m positive }

/-- `axis_move` (Axis.c:173-221) with the underlying stepper operations
modelled as succeeding (motors idle, GPIO writes succeed), which is the path
the verified property describes.  The result is the C status, the axis state
after the call, and the `steps` argument passed to `stepper_step_multiple`
(`none` when no request is made). -/
def axis_move (a : AxisSt) (d : ℚ) : Int × AxisSt × Option Nat :=
  if d = 0 then (0, a, none)
  else
    -- If a previous command caused a temporary direction change, reset it
    let a1 := if a.resetDir then axis_set_direction { a with resetDir := false } true
              else a
    if d < 0 then
      let a2 := axis_set_direction { a1 with resetDir := true } false
      (0, a2, some (mm_to_steps a2 (-d)))
    else
      (0, a1, some (mm_to_steps a1 d))

/-! ## Configuration loader (`control/src/config.c`)

The character-driven state machine is embedded over `List Char`.  A line
delivered by `getline` contains the characters of the line including the trailing
`'\n'` (when present) followed by the NUL terminator; the scanners walk the
suffix of the current line after the cursor (`offset`).  The C `err_str`
buffer holds at most `ERROR_STR_LEN-1 = 63` bytes; messages written by
`snprintf(err_str, ERROR_STR_LEN-1, ...)` are truncated to 62 characters,
ones written by `strncpy(err_str, ..., ERROR_STR_LEN-1)` fit untruncated. -/

/-- `enum states` (config.c:36-48). -/
inductive PState where
  | readLine | readParam | readIdentifier | setIdentifier | checkParam
  | readValue | setParam | readMotorList | cleanup | finished | error
deriving DecidableEq, Repr

/-- `enum identifiers` (config.c:51-55). -/
inductive IdentT where
  | motor | axis | invalidType
deriving DecidableEq, Repr

/-- `enum params` (config.c:58-69). -/
inductive ParamT where
  | motorName | stepPin | dirPin | stepsRot | direction | microstep
  | axisName | motorList | mmRot | invalidParam
deriving DecidableEq, Repr

/-- `struct motor_config` (config.c:16-24), without the constructed `Stepper*`
handle.  `direction` uses the C constants: counterclockwise 0, clockwise 1,
`DIRECTION_INVALID` 2. -/
structure MotorConfig where
  name : List Char
  stepPin : Int
  dirPin : Int
  microstep : Nat
  stepsRot : Nat
  direction : Nat
deriving DecidableEq, Repr

/-- A fresh `motor_list` entry: zeroed by the `memset` in `read_motor_config`, with
`direction` preset to `DIRECTION_INVALID` (config.c:907-908). -/
def initMotorNode : MotorConfig := ⟨[], 0, 0, 0, 0, 2⟩

/-- `struct axis_config` (config.c:27-33), without the constructed `Axis*`.
The C entry stores pointers into `motor_list`; here `motors` holds the
corresponding indices, and `count` is its length. -/
structure AxisConfig where
  name : List Char
  mmRot : Nat
  motors : List Nat
deriving DecidableEq, Repr

/-- A fresh zeroed `axis_list` entry. -/
def initAxisNode : AxisConfig := ⟨[], 0, []⟩

/-- `islower` in the C locale. -/
def islowerC (c : Char) : Bool := 'a' ≤ c && c ≤ 'z'

/-- `isdigit`. -/
def isdigitC (c : Char) : Bool := '0' ≤ c && c ≤ '9'

/-- `isalnum` in the C locale. -/
def isalnumC (c : Char) : Bool :=
  isdigitC c || islowerC c || ('A' ≤ c && c ≤ 'Z')

/-- `isblank`: space or horizontal tab. -/
def isblankC (c : Char) : Bool := c = ' ' || c = '\t'

/-- `strncmp(a, b, n) == 0` for NUL-free strings: the first `n` characters
agree, with the terminator acting as the end of each list. -/
def cstrEqN (a b : List Char) (n : Nat) : Bool := a.take n == b.take n

/-- Decimal value of a digit string (the effect of `atoi` on a validated
all-digit string; `atoi("") = 0`).  The C `int` overflow on absurdly long
inputs is out of modelled range. -/
def decimalVal (s : List Char) : Nat :=
  s.foldl (fun acc c => acc * 10 + (c.toNat - 48)) 0

/-- `str_to_int` (config.c:150-167): `-1` unless every character is a digit,
else the decimal value (so the empty string yields 0). -/
def str_to_int (s : List Char) : Int :=
  if s.all isdigitC then (decimalVal s : Int) else -1

/-- `str_to_dir` (config.c:131-142), via two bounded `strncmp`s of length 16:
counterclockwise 0, clockwise 1, otherwise `DIRECTION_INVALID` 2. -/
def str_to_dir (s : List Char) : Nat :=
  if cstrEqN s "counterclockwise".data 16 then 0
  else if cstrEqN s "clockwise".data 16 then 1
  else 2

/-- `is_valid_microstep` (Stepper.c:738-757). -/
def is_valid_microstep (m : Nat) : Bool :=
  m = 1 || m = 2 || m = 4 || m = 8 || m = 16

/-- `int_to_gpio_pin` (GPIO.c:231-304).  The `J21_HEADER_PIN_*` enum values
are `GPIO_MAIN_CONTROLLER_FLAG | line` = `2^31 + line` for the main chip and
`GPIO_AON_CONTROLLER_FLAG | line` = `2^30 + line` for the always-on chip,
taken here at their mathematical (unsigned) value; every property below uses
them only as nonzero values distinct from `INVALID_PIN = -1`. -/
def int_to_gpio_pin (p : Int) : Int :=
  if p = 7 then 2147483648 + 76
  else if p = 8 then 2147483648 + 144
  else if p = 10 then 2147483648 + 145
  else if p = 11 then 2147483648 + 146
  else if p = 12 then 2147483648 + 72
  else if p = 13 then 2147483648 + 77
  else if p = 16 then 1073741824 + 40
  else if p = 18 then 2147483648 + 161
  else if p = 19 then 2147483648 + 109
  else if p = 21 then 2147483648 + 108
  else if p = 23 then 2147483648 + 107
  else if p = 24 then 2147483648 + 110
  else if p = 29 then 2147483648 + 78
  else if p = 31 then 1073741824 + 42
  else if p = 32 then 1073741824 + 41
  else if p = 33 then 2147483648 + 69
  else if p = 35 then 2147483648 + 75
  else if p = 36 then 2147483648 + 147
  else if p = 37 then 2147483648 + 68
  else if p = 38 then 2147483648 + 74
  else if p = 40 then 2147483648 + 73
  else -1

/-- Low hex digit, for the `%02hhx` in the scanner diagnostics. -/
def hexDigit (n : Nat) : Char :=
  if n < 10 then Char.ofNat (48 + n) else Char.ofNat (87 + n)

/-- `%02hhx` applied to a character. -/
def hex2 (c : Char) : List Char :=
  [hexDigit (c.toNat % 256 / 16), hexDigit (c.toNat % 256 % 16)]

def msgParamTooLong : List Char :=
  "Param identifier has exceeded max length in motor.conf".data

def msgIdentTooLong : List Char :=
  "Type identifier has exceeded max length in motor.conf".data

def msgValueTooLong : List Char :=
  "Value has exceeded max length in motor.conf".data

def msgInvalidCharParam (c : Char) : List Char :=
  ("Invalid char (".data ++ [c] ++ " [0x".data ++ hex2 c
    ++ "]) at param in motor.conf".data).take 62

def msgInvalidCharIdent (c : Char) : List Char :=
  ("Invalid char '".data ++ [c] ++ "' (0x".data ++ hex2 c
    ++ ") at type identifier in motor.conf".data).take 62

/-- The value scanner and the motor-list scanner reuse the "type identifier"
wording of their diagnostic (config.c:502, 689). -/
def msgInvalidCharValue (c : Char) : List Char :=
  ("Invalid char (".data ++ [c] ++ " [0x".data ++ hex2 c
    ++ "]) at type identifier in motor.conf".data).take 62

def msgBadIdent (s : List Char) : List Char :=
  ("Invalid type identifier (".data ++ s ++ ") used in motor.conf".data).take 62

def msgNoIdent : List Char :=
  "Last type identifier is invalid or not defined".data

def msgBadParam (s : List Char) (id : IdentT) : List Char :=
  (s ++ " is not a valid parameter for type ".data
    ++ (if id = IdentT.motor then "motor".data else "axis".data)
    ++ ", in motor.conf".data).take 62

def msgBadNumeric (v : List Char) : List Char :=
  (v ++ " is not a valid numerical value.".data).take 62

def msgBadStepPin (v : List Char) : List Char :=
  (v ++ " is not a valid value for step_pin.".data).take 62

def msgBadDirPin (v : List Char) : List Char :=
  (v ++ " is not a valid value for dir_pin.".data).take 62

/-- The source misspells "rotation" here (config.c:583); kept verbatim. -/
def msgBadStepsRot (v : List Char) : List Char :=
  (v ++ " is not a valid value for steps_per_roation.".data).take 62

def msgBadDirection (v : List Char) : List Char :=
  (v ++ " is not a valid direction.".data).take 62

def msgBadMicrostep (v : List Char) : List Char :=
  (v ++ " is not a valid value for microstep.".data).take 62

def msgInvalidParamSet : List Char := "Invalid parameter was set.".data

def msgMotorNotFound (name : List Char) : List Char :=
  ("Motor ".data ++ name
    ++ " not found before axis definition in motor.conf".data).take 62

def msgAbruptEnd : List Char :=
  ("Abrupt end in a motor list in motor.conf".data).take 62

/-- Result of one scanning routine: the buffer it filled, the machine state it
set, the rest of the line past the incremented cursor, and the diagnostic (for
error exits). -/
structure ScanOut where
  buf : List Char
  state : PState
  rest : List Char
  err : List Char
deriving DecidableEq, Repr

/-- The scanning loop of `state_read_param` (config.c:256-304).  `acc` is the
partially filled `param_buff` (`param_len = acc.length`, capped at
`PARAM_MAX_LEN - 1 = 31`).  Falling off the end of the line leaves the machine
state at `READ_PARAM`; with the NUL terminator present this cannot happen. -/
def scanParamAux : List Char → List Char → ScanOut
  | [], acc => ⟨acc, .readParam, [], []⟩
  | c :: cs, acc =>
    if islowerC c || c = '_' then
      if acc.length < 31 then scanParamAux cs (acc ++ [c])
      else ⟨acc, .error, cs, msgParamTooLong⟩
    else if c = '=' then ⟨acc, .checkParam, cs, []⟩
    else if c = '[' then ⟨acc, .readIdentifier, cs, []⟩
    else if c = '#' || isblankC c || c = '\n' then ⟨acc, .cleanup, cs, []⟩
    else ⟨acc, .error, cs, msgInvalidCharParam c⟩

/-- The scanning loop of `state_read_identifier` (config.c:317-354). -/
def scanIdentifierAux : List Char → List Char → ScanOut
  | [], acc => ⟨acc, .readIdentifier, [], []⟩
  | c :: cs, acc =>
    if islowerC c then
      if acc.length < 31 then scanIdentifierAux cs (acc ++ [c])
      else ⟨acc, .error, cs, msgIdentTooLong⟩
    else if c = ']' then ⟨acc, .setIdentifier, cs, []⟩
    else ⟨acc, .error, cs, msgInvalidCharIdent c⟩

/-- The scanning loop of `state_read_value` (config.c:473-510). -/
def scanValueAux : List Char → List Char → ScanOut
  | [], acc => ⟨acc, .readValue, [], []⟩
  | c :: cs, acc =>
    if isalnumC c || c = '-' || c = '_' then
      if acc.length < 31 then scanValueAux cs (acc ++ [c])
      else ⟨acc, .error, cs, msgValueTooLong⟩
    else if isblankC c || c = '#' || c = '\n' then ⟨acc, .setParam, cs, []⟩
    else ⟨acc, .error, cs, msgInvalidCharValue c⟩

/-- How one inner scan of `state_read_motor_list` ended: at a comma, at a
blank/comment/newline (list finished, `CLEANUP` and full stop), with a parse
error, or by falling off the end of the line (`stop` and `error` both unset;
unreachable when the NUL terminator is present). -/
inductive MLCode where
  | comma | endList | errorScan | fellOff
deriving DecidableEq, Repr

structure MLScanOut where
  buf : List Char
  code : MLCode
  rest : List Char
  err : List Char
deriving DecidableEq, Repr

/-- The inner parser of `state_read_motor_list` (config.c:663-697). -/
def scanMotorNameAux : List Char → List Char → MLScanOut
  | [], acc => ⟨acc, .fellOff, [], []⟩
  | c :: cs, acc =>
    if isalnumC c || c = '-' || c = '_' then
      if acc.length < 31 then scanMotorNameAux cs (acc ++ [c])
      else ⟨acc, .errorScan, cs, msgValueTooLong⟩
    else if c = ',' then ⟨acc, .comma, cs, []⟩
    else if isblankC c || c = '#' || c = '\n' then ⟨acc, .endList, cs, []⟩
    else ⟨acc, .errorScan, cs, msgInvalidCharValue c⟩

/-- `get_motor_node_by_name` (config.c:175-190), returning the index of the
first `motor_list` entry whose name matches (`strncmp` bounded by
`MOTOR_NAME_LEN = 32` is exact equality for the at-most-31-character strings
involved). -/
def findMotorIdx (motors : List MotorConfig) (name : List Char) : Option Nat :=
  motors.findIdx? fun node => node.name == name

/-- Write through to the entry `list[len-1]`, the one the C code addresses
after `len` was incremented by `state_set_identifier`.  On an empty list the C
index `-1` is out of bounds (undefined behaviour, unreachable from the state
machine); modelled as a no-op. -/
def modLast {α : Type} (f : α → α) : List α → List α
  | [] => []
  | [a] => [f a]
  | a :: b :: rest => a :: modLast f (b :: rest)

/-- The full parser state: the `motor_config_state` / `err_str` globals, the
two output lists, and the locals of `motor_config_state_machine`
(config.c:739-828).  `lines` is the unread remainder of the file; `line` is
the suffix of the current line buffer from the cursor on. -/
structure Machine where
  pstate : PState
  lines : List (List Char)
  line : List Char
  param : List Char
  value : List Char
  paramId : ParamT
  lastId : IdentT
  motors : List MotorConfig
  axes : List AxisConfig
  errStr : List Char
deriving DecidableEq, Repr

/-- `state_set_identifier` (config.c:366-392).  Note both comparisons are
`strncmp` bounded by the length of the keyword itself, and that the length counters
are incremented with no bound check; incrementing the list length is modelled
by appending a fresh zeroed entry (for the ninth and later entries the C code
addresses storage past the end of the 8-entry array). -/
def state_set_identifier (idBuff : List Char) (st : Machine) : Machine :=
  if cstrEqN idBuff "motor".data 5 then
    { st with lastId := .motor, motors := st.motors ++ [initMotorNode],
              pstate := .cleanup }
  else if cstrEqN idBuff "axis".data 4 then
    { st with lastId := .axis, axes := st.axes ++ [initAxisNode],
              pstate := .cleanup }
  else
    { st with lastId := .invalidType, pstate := .error, errStr := msgBadIdent idBuff }

/-- The parameter table for motor sections with the hard-coded `strncmp`
lengths (config.c:72-75). -/
def motorParams : List (List Char × Nat × ParamT) :=
  [("name".data, 4, .motorName), ("step_pin".data, 8, .stepPin),
   ("dir_pin".data, 7, .dirPin), ("steps_per_rotation".data, 18, .stepsRot),
   ("direction".data, 9, .direction), ("microstep".data, 9, .microstep)]

/-- The parameter table for axis sections (config.c:78-81). -/
def axisParams : List (List Char × Nat × ParamT) :=
  [("name".data, 4, .axisName), ("motors".data, 6, .motorList),
   ("mm_per_rotation".data, 15, .mmRot)]

/-- The validation loop of `state_check_param` (config.c:442-450): first
match under the bounded `strncmp` wins. -/
def checkParamLoop (buf : List Char) :
    List (List Char × Nat × ParamT) → Option ParamT
  | [] => none
  | (p, len, pid) :: rest =>
    if cstrEqN buf p len then some pid else checkParamLoop buf rest

/-- `state_check_param` (config.c:403-460). -/
def state_check_param (buf : List Char) (id : IdentT) (st : Machine) : Machine :=
  if id = .invalidType then
    { st with pstate := .error, paramId := .invalidParam, errStr := msgNoIdent }
  else if cstrEqN buf "motors".data 6 then
    { st with pstate := .readMotorList, paramId := .motorList }
  else
    let plist := if id = .motor then motorParams else axisParams
    match checkParamLoop buf plist with
    | some pid => { st with pstate := .readValue, paramId := pid }
    | none =>
      { st with pstate := .error, paramId := .invalidParam,
                errStr := msgBadParam buf id }

/-- `state_set_param` (config.c:520-640).  The next state is `CLEANUP` unless
a validation fails. -/
def state_set_param (pid : ParamT) (v : List Char) (st0 : Machine) : Machine :=
  let st := { st0 with pstate := PState.cleanup }
  match pid with
  | .motorName =>
    { st with motors := modLast (fun m => { m with name := v.take 31 }) st.motors }
  | .stepPin =>
    let t := str_to_int v
    if t > 0 then
      let g := int_to_gpio_pin t
      if g ≠ -1 then
        { st with motors := modLast (fun m => { m with stepPin := g }) st.motors }
      else { st with pstate := .error, errStr := msgBadStepPin v }
    else { st with pstate := .error, errStr := msgBadNumeric v }
  | .dirPin =>
    let t := str_to_int v
    if t > 0 then
      let g := int_to_gpio_pin t
      if g ≠ -1 then
        { st with motors := modLast (fun m => { m with dirPin := g }) st.motors }
      else { st with pstate := .error, errStr := msgBadDirPin v }
    else { st with pstate := .error, errStr := msgBadNumeric v }
  | .stepsRot =>
    let t := str_to_int v
    if t > 0 then
      { st with motors := modLast (fun m => { m with stepsRot := t.toNat }) st.motors }
    else { st with pstate := .error, errStr := msgBadStepsRot v }
  | .direction =>
    let t := str_to_dir v
    if t ≠ 2 then
      { st with motors := modLast (fun m => { m with direction := t }) st.motors }
    else { st with pstate := .error, errStr := msgBadDirection v }
  | .microstep =>
    let t := str_to_int v
    if t > 0 && is_valid_microstep t.toNat then
      { st with motors := modLast (fun m => { m with microstep := t.toNat }) st.motors }
    else { st with pstate := .error, errStr := msgBadMicrostep v }
  | .axisName =>
    { st with axes := modLast (fun a => { a with name := v.take 31 }) st.axes }
  | .motorList => st
  | .mmRot =>
    let t := str_to_int v
    if t > 0 then
      { st with axes := modLast (fun a => { a with mmRot := t.toNat }) st.axes }
    else { st with pstate := .error, errStr := msgBadNumeric v }
  | .invalidParam =>
    { st with pstate := .error, errStr := msgInvalidParamSet }

/-- The `while(!stop)` parse-then-set loop of `state_read_motor_list`
(config.c:650-731), consuming `st.line`.  Each pass scans one motor name; on a
comma the loop continues, on blank/comment/newline it stops in `CLEANUP`, and
an unknown name, empty name, or scan error stops in `ERROR`.  The fuel only
bounds the recursion; `lineLen + 1` passes always suffice since every
continuing pass consumes at least the separating comma. -/
def motorListLoop : Nat → Machine → Machine
  | 0, st => st
  | f + 1, st =>
    let r := scanMotorNameAux st.line []
    let st1 := { st with line := r.rest }
    if r.code = .errorScan then
      { st1 with pstate := .error, errStr := r.err }
    else if r.buf.length > 0 then
      match findMotorIdx st1.motors r.buf with
      | some idx =>
        let st2 := { st1 with
          axes := modLast (fun a => { a with motors := a.motors ++ [idx] }) st1.axes }
        if r.code = .comma then motorListLoop f st2
        else if r.code = .endList then { st2 with pstate := .cleanup }
        else motorListLoop f st2  -- fell off the line: stop unset, loop again
      | none =>
        { st1 with pstate := .error, errStr := msgMotorNotFound r.buf }
    else
      { st1 with pstate := .error, errStr := msgAbruptEnd }

/-- One pass of the `switch` in `motor_config_state_machine`
(config.c:761-825), for the non-terminal states.  `READ_LINE` models a
successful `getline` (I/O errors are environment failures, not modelled): the
new buffer is the line's characters (with their `'\n'`) plus the NUL
terminator. -/
def machineStep (st : Machine) : Machine :=
  match st.pstate with
  | .readLine =>
    match st.lines with
    | [] => { st with pstate := .finished }
    | l :: ls =>
      { st with lines := ls, line := l ++ [Char.ofNat 0], pstate := .readParam }
  | .readParam =>
    let r := scanParamAux st.line []
    { st with param := r.buf, line := r.rest, pstate := r.state,
              errStr := if r.state = .error then r.err else st.errStr }
  | .readIdentifier =>
    let r := scanIdentifierAux st.line []
    { st with param := r.buf, line := r.rest, pstate := r.state,
              errStr := if r.state = .error then r.err else st.errStr }
  | .setIdentifier => state_set_identifier st.param st
  | .checkParam => state_check_param st.param st.lastId st
  | .readValue =>
    let r := scanValueAux st.line []
    { st with value := r.buf, line := r.rest, pstate := r.state,
              errStr := if r.state = .error then r.err else st.errStr }
  | .setParam => state_set_param st.paramId st.value st
  | .readMotorList => motorListLoop (st.line.length + 1) st
  | .cleanup =>
    { st with line := [], param := [], value := [], errStr := [],
              pstate := .readLine }
  | .finished => st
  | .error => st

/-- The driver loop of `motor_config_state_machine`: iterate `machineStep`
until `FINISHED` (result 0) or `ERROR` (result 1).  `none` means the fuel ran
out before a terminal state. -/
def machineRun : Nat → Machine → Option (Nat × Machine)
  | 0, _ => none
  | f + 1, st =>
    match st.pstate with
    | .finished => some (0, st)
    | .error => some (1, st)
    | _ => machineRun f (machineStep st)

/-- The entry state of the machine (config.c:750-760 plus the list initialisation
in `read_motor_config`): state `CLEANUP`, empty scratch buffers,
`param_id = INVALID_PARAM`, `last_id = INVALID_TYPE`, empty output lists. -/
def initMachine (fileLines : List (List Char)) : Machine :=
  ⟨.cleanup, fileLines, [], [], [], .invalidParam, .invalidType, [], [], []⟩

/-- `motor_config_state_machine` on a whole file. -/
def motor_config_state_machine (fileLines : List (List Char)) (fuel : Nat) :
    Option (Nat × Machine) :=
  machineRun fuel (initMachine fileLines)

/-- `validate_motor_node` (config.c:101-109). -/
def validate_motor_node (n : MotorConfig) : Bool :=
  n.dirPin ≠ 0 && n.stepPin ≠ 0 && n.direction ≠ 2 && n.name ≠ [] &&
  n.stepsRot ≠ 0 && n.microstep ≠ 0

/-- `validate_axis_node` (config.c:117-122).  The C third conjunct
`node->name != NULL` tests the address of an embedded array and is always
true. -/
def validate_axis_node (a : AxisConfig) : Bool :=
  a.motors.length > 0 && a.mmRot > 0

/-- `init_motors` (config.c:837-881), with `stepper_init` / `axis_init`
modelled as succeeding: the constructed object graph is represented by the
validated config lists; any invalid entry aborts with no graph (the C code
stops at the first failure and leaks the earlier objects). -/
def init_motors (m : Machine) :
    Option (List MotorConfig × List AxisConfig) :=
  if m.motors.all validate_motor_node && m.axes.all validate_axis_node then
    some (m.motors, m.axes)
  else none

/-- `read_motor_config` (config.c:892-922): run the state machine; on machine
error return `-1` with no objects constructed, otherwise build the object
graph (`-1` with no objects if a node fails validation). -/
def read_motor_config (fileLines : List (List Char)) (fuel : Nat) :
    Option (Int × Option (List MotorConfig × List AxisConfig)) :=
  match motor_config_state_machine fileLines fuel with
  | none => none
  | some (err, m) =>
    if err = 0 then
      match init_motors m with
      | some objs => some (0, some objs)
      | none => some (-1, none)
    else some (-1, none)

/-! ## Concrete configuration inputs used by the parser theorems -/

/-- Scenario S6 of the specification: a motor `a` followed by an axis whose
`motors` parameter names the undefined motor `b`. -/
def s6ConfigFile : List (List Char) :=
  ["[motor]\n".data, "name=a\n".data, "[axis]\n".data, "motors=a,b\n".data]

/-- A machine state entering `READ_MOTOR_LIST` with the rest of the line at
`b,` and an empty motor list: the instantiation used for the C7 witness. -/
def w7Machine : Machine :=
  ⟨.readMotorList, [], "b\n".data ++ [Char.ofNat 0], [], [],
   .motorList, .axis, [], [⟨"x".data, 0, []⟩], []⟩

/-- Nine `[motor]` section headers, the ninth followed by a `name` parameter:
the input on which the parser exceeds the 8-entry list bound. -/
def nineMotorFile : List (List Char) :=
  List.replicate 8 "[motor]\n".data ++ ["[motor]\n".data, "name=m9\n".data]

/-! ## Theorems

Helper lemmas first, then for each claim its theorem (and, where applicable,
witness or counterexample). -/

theorem forall2_map {α β : Type} (r : α → β → Prop) (f : α → β) :
    ∀ l : List α, (∀ a ∈ l, r a (f a)) → List.Forall₂ r l (l.map f)
  | [], _ => List.Forall₂.nil
  | a :: l, h =>
    List.Forall₂.cons (h a (by simp))
      (forall2_map r f l fun x hx => h x (by simp [hx]))

/-- Over `k` iterations, `pulseStep` adds `k` to the accumulator of every
motor stepping in its positive direction and subtracts `k` otherwise. -/
theorem pulseStep_iterate (k : Nat) (ms : List Stepper) :
    pulseStep^[k] ms = ms.map fun m =>
      { m with steps := m.steps +
          k * (if m.currDirection = m.posDirection then 1 else -1) } := by
  induction k generalizing ms with
  | zero =>
    simp only [Function.iterate_zero, id_eq, Nat.cast_zero, zero_mul, add_zero]
    exact (List.map_id ms).symm
  | succ k ih =>
    rw [Function.iterate_succ_apply, ih (pulseStep ms)]
    unfold pulseStep
    rw [List.map_map]
    apply List.map_congr_left
    intro m _
    rcases m with ⟨pd, cd, hp, msr, s, b⟩
    by_cases h : cd = pd <;>
      simp [pulseOne, Function.comp, h] <;> omega

/-- The pointwise form of `pulseStep_iterate`: after `k` iterations every
accumulator has moved by exactly `k` in magnitude. -/
theorem pulseStep_iterate_forall2 (k : Nat) (ms : List Stepper) :
    List.Forall₂ (fun m m2 => (m2.steps - m.steps).natAbs = k) ms
      (pulseStep^[k] ms) := by
  rw [pulseStep_iterate]
  apply forall2_map
  intro m _
  by_cases h : m.currDirection = m.posDirection <;> simp [h]

/-- The equation of the do-while loop for a positive remaining count. -/
theorem motorPulserRun_succ (stops : Nat → Nat → Bool) (t n : Nat)
    (ms : List Stepper) :
    motorPulserRun stops t (n + 1) ms =
      if n = 0 || foldStops stops t ms.length then pulseStep ms
      else motorPulserRun stops (t + 1) n (pulseStep ms) := rfl

/-- The pulse loop performs between 1 and `n` iterations. -/
theorem motorPulserRun_eq_iterate (stops : Nat → Nat → Bool) :
    ∀ n, 1 ≤ n → ∀ t ms, ∃ k, 1 ≤ k ∧ k ≤ n ∧
      motorPulserRun stops t n ms = pulseStep^[k] ms := by
  intro n
  induction n with
  | zero => omega
  | succ n ih =>
    intro _ t ms
    by_cases hc : (n = 0 || foldStops stops t ms.length) = true
    · exact ⟨1, le_refl 1, by omega, by rw [motorPulserRun_succ, if_pos hc]; rfl⟩
    · have hn : 1 ≤ n := by
        rcases Bool.or_eq_false_iff.mp (Bool.eq_false_iff.mpr hc) with ⟨h1, _⟩
        simpa using Nat.one_le_iff_ne_zero.mpr (by simpa using h1)
      obtain ⟨k, hk1, hk2, hk3⟩ := ih hn (t + 1) (pulseStep ms)
      exact ⟨k + 1, by omega, by omega,
        by rw [motorPulserRun_succ, if_neg (by simpa using hc), hk3,
               ← Function.iterate_succ_apply]⟩

/-- If no stop flag is ever read as set, the pulse loop performs exactly `n`
iterations. -/
theorem motorPulserRun_no_stop (stops : Nat → Nat → Bool)
    (h : ∀ t i, stops t i = false) :
    ∀ n, 1 ≤ n → ∀ t ms, motorPulserRun stops t n ms = pulseStep^[n] ms := by
  intro n
  induction n with
  | zero => omega
  | succ n ih =>
    intro _ t ms
    have hf : foldStops stops t ms.length = false := by simp [foldStops, h]
    by_cases hn : n = 0
    · subst hn; rw [motorPulserRun_succ]; simp [hf]
    · rw [motorPulserRun_succ, hf]
      rw [if_neg (by simp [hn]), ih (by omega) (t + 1) (pulseStep ms),
          ← Function.iterate_succ_apply]

/-- C1: for a request of `n ≥ 1` steps, every participating motor changes its
accumulator in magnitude by at most `n`; all participants change by the same
amount `k` (lockstep, one per emitted pulse); and when no stop flag of any
participant is read as set during the motion, each changes by exactly `n`. -/
theorem C1_pulser_lockstep (stops : Nat → Nat → Bool) (n : Nat) (hn : 1 ≤ n)
    (ms : List Stepper) :
    List.Forall₂ (fun m m2 => (m2.steps - m.steps).natAbs ≤ n) ms
      (motorPulserRun stops 0 n ms) ∧
    (∃ k, 1 ≤ k ∧ k ≤ n ∧
      List.Forall₂ (fun m m2 => (m2.steps - m.steps).natAbs = k) ms
        (motorPulserRun stops 0 n ms)) ∧
    ((∀ t i, stops t i = false) →
      List.Forall₂ (fun m m2 => (m2.steps - m.steps).natAbs = n) ms
        (motorPulserRun stops 0 n ms)) := by
  obtain ⟨k, hk1, hk2, hrun⟩ := motorPulserRun_eq_iterate stops n hn 0 ms
  refine ⟨?_, ⟨k, hk1, hk2, by rw [hrun]; exact pulseStep_iterate_forall2 k ms⟩, ?_⟩
  · rw [hrun]
    exact (pulseStep_iterate_forall2 k ms).imp fun a b h => h ▸ hk2
  · intro hstop
    rw [motorPulserRun_no_stop stops hstop n hn 0 ms]
    exact pulseStep_iterate_forall2 n ms

theorem C1_pulser_lockstep_witness :
    List.Forall₂ (fun m m2 => (m2.steps - m.steps).natAbs ≤ 3)
      [(⟨true, true, 0, 400, 0, false⟩ : Stepper), ⟨true, false, 0, 400, 5, false⟩]
      (motorPulserRun (fun _ _ => false) 0 3
        [⟨true, true, 0, 400, 0, false⟩, ⟨true, false, 0, 400, 5, false⟩]) ∧
    (∃ k, 1 ≤ k ∧ k ≤ 3 ∧
      List.Forall₂ (fun m m2 => (m2.steps - m.steps).natAbs = k)
        [(⟨true, true, 0, 400, 0, false⟩ : Stepper), ⟨true, false, 0, 400, 5, false⟩]
        (motorPulserRun (fun _ _ => false) 0 3
          [⟨true, true, 0, 400, 0, false⟩, ⟨true, false, 0, 400, 5, false⟩])) ∧
    ((∀ t i, (fun _ _ => false : Nat → Nat → Bool) t i = false) →
      List.Forall₂ (fun m m2 => (m2.steps - m.steps).natAbs = 3)
        [(⟨true, true, 0, 400, 0, false⟩ : Stepper), ⟨true, false, 0, 400, 5, false⟩]
        (motorPulserRun (fun _ _ => false) 0 3
          [⟨true, true, 0, 400, 0, false⟩, ⟨true, false, 0, 400, 5, false⟩])) :=
  C1_pulser_lockstep (fun _ _ => false) 3 (by decide)
    [⟨true, true, 0, 400, 0, false⟩, ⟨true, false, 0, 400, 5, false⟩]

/-- C10: the pulse loop is a do-while, so for an accepted request of `n ≥ 1`
steps one full pulse is always emitted before the stop flags are first
examined: every participating motor moves by at least one microstep, and if a
stop flag is already set when pulsing begins the loop performs exactly that
one pulse. -/
theorem C10_first_pulse_unconditional (stops : Nat → Nat → Bool) (n : Nat)
    (hn : 1 ≤ n) (ms : List Stepper) :
    List.Forall₂ (fun m m2 => 1 ≤ (m2.steps - m.steps).natAbs) ms
      (motorPulserRun stops 0 n ms) ∧
    (foldStops stops 0 ms.length = true →
      motorPulserRun stops 0 n ms = pulseStep ms) := by
  obtain ⟨k, hk1, hk2, hrun⟩ := motorPulserRun_eq_iterate stops n hn 0 ms
  constructor
  · rw [hrun]
    exact (pulseStep_iterate_forall2 k ms).imp fun a b h => h ▸ hk1
  · intro hstop
    obtain ⟨m, rfl⟩ : ∃ m, n = m + 1 := ⟨n - 1, by omega⟩
    rw [motorPulserRun_succ, if_pos (by simp [hstop])]

theorem C10_first_pulse_unconditional_witness :
    List.Forall₂ (fun m m2 => 1 ≤ (m2.steps - m.steps).natAbs)
      [(⟨true, true, 0, 400, 0, false⟩ : Stepper)]
      (motorPulserRun (fun _ _ => true) 0 5 [⟨true, true, 0, 400, 0, false⟩]) ∧
    (foldStops (fun _ _ => true) 0
        [(⟨true, true, 0, 400, 0, false⟩ : Stepper)].length = true →
      motorPulserRun (fun _ _ => true) 0 5 [⟨true, true, 0, 400, 0, false⟩] =
        pulseStep [⟨true, true, 0, 400, 0, false⟩]) :=
  C10_first_pulse_unconditional (fun _ _ => true) 5 (by decide)
    [⟨true, true, 0, 400, 0, false⟩]

/-- If some motor of the list is busy, the speed loop stops with `-1` at the
first busy motor: the motors before it are already updated, that motor and
everything after it are untouched. -/
theorem setSpeedLoop_busy (pps2 : Nat) :
    ∀ motors : List Stepper, (∃ m ∈ motors, m.busy = true) →
      setSpeedLoop pps2 motors =
        (-1, (motors.take (motors.findIdx fun m => m.busy)).map (updSpeed pps2)
              ++ motors.drop (motors.findIdx fun m => m.busy)) := by
  intro motors
  induction motors with
  | nil => intro h; simp at h
  | cons m rest ih =>
    intro h
    by_cases hb : m.busy
    · simp [setSpeedLoop, hb, List.findIdx_cons]
    · have hr : ∃ x ∈ rest, x.busy = true := by
        rcases h with ⟨x, hx, hbx⟩
        rcases List.mem_cons.mp hx with rfl | hx2
        · exact absurd hbx hb
        · exact ⟨x, hx2, hbx⟩
      simp [setSpeedLoop, hb, List.findIdx_cons, ih hr]

/-- If the speed loop reports success, every motor was updated. -/
theorem setSpeedLoop_ok (pps2 : Nat) :
    ∀ motors : List Stepper, (setSpeedLoop pps2 motors).1 = 0 →
      (setSpeedLoop pps2 motors).2 = motors.map (updSpeed pps2) := by
  intro motors
  induction motors with
  | nil => intro _; rfl
  | cons m rest ih =>
    intro h
    by_cases hb : m.busy
    · simp [setSpeedLoop, hb] at h
    · simp [setSpeedLoop, hb] at h ⊢
      exact ih h

/-- C2 counterexample: a two-motor call in which only the second motor is busy
returns the error, but the first motor has already had its `half_period`
changed (0 to 500), so the call is not side-effect free. -/
theorem C2_set_speed_counterexample :
    (stepper_set_speed_multiple
        [⟨false, false, 0, 400, 0, false⟩, ⟨false, false, 0, 400, 0, true⟩]
        1000).1 = -1 ∧
    (stepper_set_speed_multiple
        [⟨false, false, 0, 400, 0, false⟩, ⟨false, false, 0, 400, 0, true⟩]
        1000).2 ≠
      [⟨false, false, 0, 400, 0, false⟩, ⟨false, false, 0, 400, 0, true⟩] ∧
    ((stepper_set_speed_multiple
        [⟨false, false, 0, 400, 0, false⟩, ⟨false, false, 0, 400, 0, true⟩]
        1000).2.head?.map Stepper.halfPeriod) = some 500 := by
  refine ⟨?_, ?_, ?_⟩ <;> decide

/-- C2 (amended): if some motor of the list is busy (and the call passes input
validation: `pps > 0`, at most 8 motors), `set_speed_multiple` returns an
error, but it is not free of side effects: the motors strictly before the
first busy one have `half_period` set to `500000 / min(pps, 4160)`, while the
first busy motor and all motors after it are unchanged.  In particular the
call is side-effect free exactly when the first motor of the list is busy. -/
theorem C2_set_speed_busy_updates (motors : List Stepper) (pps : Nat)
    (hp : pps ≠ 0) (hlen : motors.length ≤ MOTOR_LIST_SIZE_MAX)
    (hb : ∃ m ∈ motors, m.busy = true) :
    stepper_set_speed_multiple motors pps =
      (-1,
        (motors.take (motors.findIdx fun m => m.busy)).map
          (updSpeed (if pps > MAX_PPS then MAX_PPS else pps))
        ++ motors.drop (motors.findIdx fun m => m.busy)) := by
  have hne : motors.length ≠ 0 := by
    rcases hb with ⟨m, hm, _⟩
    cases motors
    · simp at hm
    · simp
  unfold stepper_set_speed_multiple
  rw [if_neg hp, if_neg (by push_neg; exact ⟨hne, hlen⟩)]
  exact setSpeedLoop_busy _ motors hb

theorem C2_set_speed_busy_updates_witness :
    stepper_set_speed_multiple
        [⟨false, false, 0, 400, 0, false⟩, ⟨false, false, 0, 400, 0, true⟩]
        1000 =
      (-1, [⟨false, false, 500, 400, 0, false⟩, ⟨false, false, 0, 400, 0, true⟩]) :=
  (C2_set_speed_busy_updates
      [⟨false, false, 0, 400, 0, false⟩, ⟨false, false, 0, 400, 0, true⟩] 1000
      (by decide) (by decide)
      ⟨⟨false, false, 0, 400, 0, true⟩, by decide, rfl⟩).trans (by decide)

/-- C3: `step_multiple` is rejected (negative status, no request created)
whenever the first motor of the list is busy, and the busy gate examines only
the first motor: with valid inputs and an idle first motor the request is
created no matter what the busy flags of the other motors are. -/
theorem C3_step_multiple_first_motor_gate (m0 : Stepper) (rest : List Stepper)
    (steps : Nat) :
    (m0.busy = true → stepper_step_multiple (m0 :: rest) steps = (-1, none)) ∧
    (steps ≠ 0 → (m0 :: rest).length ≤ MOTOR_LIST_SIZE_MAX → m0.busy = false →
      stepper_step_multiple (m0 :: rest) steps =
        (0, some ⟨m0 :: rest, steps⟩)) := by
  constructor
  · intro hb
    unfold stepper_step_multiple
    by_cases h1 : steps = 0
    · rw [if_pos h1]
    · rw [if_neg h1]
      by_cases h2 : (m0 :: rest).length = 0 ∨
          (m0 :: rest).length > MOTOR_LIST_SIZE_MAX
      · rw [if_pos h2]
      · rw [if_neg h2]
        simp [hb]
  · intro h1 h2 hb
    unfold stepper_step_multiple
    rw [if_neg h1, if_neg (by push_neg; exact ⟨by simp, h2⟩)]
    simp [hb]

theorem C3_step_multiple_first_motor_gate_witness :
    stepper_step_multiple
        [⟨false, false, 0, 400, 0, true⟩, ⟨false, false, 0, 400, 0, false⟩] 5 =
      (-1, none) ∧
    stepper_step_multiple
        [⟨false, false, 0, 400, 0, false⟩, ⟨false, false, 0, 400, 0, true⟩] 5 =
      (0, some ⟨[⟨false, false, 0, 400, 0, false⟩, ⟨false, false, 0, 400, 0, true⟩],
                5⟩) :=
  ⟨(C3_step_multiple_first_motor_gate ⟨false, false, 0, 400, 0, true⟩
      [⟨false, false, 0, 400, 0, false⟩] 5).1 rfl,
   (C3_step_multiple_first_motor_gate ⟨false, false, 0, 400, 0, false⟩
      [⟨false, false, 0, 400, 0, true⟩] 5).2 (by decide) (by decide) rfl⟩

/-- C4: every successful `set_speed_multiple` call with `pps > 0` leaves every
motor of the list with `half_period = 500000 / min(pps, 4160)` (integer
division, microseconds). -/
theorem C4_set_speed_success (motors : List Stepper) (pps : Nat)
    (hp : 0 < pps) (hs : (stepper_set_speed_multiple motors pps).1 = 0) :
    ∀ m ∈ (stepper_set_speed_multiple motors pps).2,
      m.halfPeriod = 500000 / min pps MAX_PPS := by
  unfold stepper_set_speed_multiple at hs ⊢
  rw [if_neg (by omega)] at hs ⊢
  by_cases hl : motors.length = 0 ∨ motors.length > MOTOR_LIST_SIZE_MAX
  · rw [if_pos hl] at hs
    simp at hs
  · rw [if_neg hl] at hs ⊢
    intro m hm
    rw [setSpeedLoop_ok _ motors hs] at hm
    rcases List.mem_map.mp hm with ⟨m0, _, rfl⟩
    show ({ m0 with halfPeriod := _ } : Stepper).halfPeriod = _
    simp only
    congr 1
    rw [Nat.min_def]
    split_ifs <;> omega

theorem C4_set_speed_success_witness :
    (⟨false, false, 2500, 400, 0, false⟩ : Stepper).halfPeriod =
      500000 / min 200 MAX_PPS :=
  C4_set_speed_success [⟨false, false, 0, 400, 0, false⟩] 200 (by decide) (by decide)
    ⟨false, false, 2500, 400, 0, false⟩ (by decide)

/-- C5 counterexample: for an axis whose first motor has 200 microsteps per
rotation and `mm_per_rotation = 16` (so 1 mm is exactly 12.5 microsteps, a
value the double arithmetic of the source computes exactly), the conversion in
the code yields 12 while round-to-nearest yields 13. -/
theorem C5_mm_to_steps_counterexample :
    (mm_to_steps ⟨[⟨false, false, 0, 200, 0, false⟩], 16, false⟩ 1 : Int) ≠
      mm_to_steps_specRound ⟨[⟨false, false, 0, 200, 0, false⟩], 16, false⟩ 1 ∧
    mm_to_steps ⟨[⟨false, false, 0, 200, 0, false⟩], 16, false⟩ 1 = 12 ∧
    mm_to_steps_specRound ⟨[⟨false, false, 0, 200, 0, false⟩], 16, false⟩ 1 = 13 := by
  have h2 : mm_to_steps ⟨[⟨false, false, 0, 200, 0, false⟩], 16, false⟩ 1 = 12 := by
    norm_num [mm_to_steps, microsteps0]
    rfl
  have h3 : mm_to_steps_specRound ⟨[⟨false, false, 0, 200, 0, false⟩], 16, false⟩ 1
      = 13 := by
    norm_num [mm_to_steps_specRound, microsteps0, round_eq]
  refine ⟨?_, h2, h3⟩
  rw [h2, h3]
  decide

/-- C5 (amended): the millimetre-to-microstep conversion used by `axis_move`
and `axis_set_speed` yields the floor (truncation toward zero) of
`mm × microsteps_per_rotation of the first motor / mm_per_rotation`, not the
nearest integer. -/
theorem C5_mm_to_steps_floor (a : AxisSt) (mm : ℚ) (h : 0 ≤ mm) :
    (mm_to_steps a mm : Int) =
      ⌊mm * (microsteps0 a : ℚ) / (a.mmPerRotation : ℚ)⌋ := by
  unfold mm_to_steps
  rw [Int.toNat_of_nonneg]
  apply Int.floor_nonneg.mpr
  exact div_nonneg (mul_nonneg h (by positivity)) (by positivity)

theorem C5_mm_to_steps_floor_witness :
    (mm_to_steps ⟨[⟨false, false, 0, 200, 0, false⟩], 16, false⟩ 1 : Int) =
      ⌊(1 : ℚ) * ((microsteps0 ⟨[⟨false, false, 0, 200, 0, false⟩], 16, false⟩ : Nat) : ℚ) /
        ((16 : Nat) : ℚ)⌋ :=
  C5_mm_to_steps_floor ⟨[⟨false, false, 0, 200, 0, false⟩], 16, false⟩ 1 (by norm_num)

theorem setDirRel_override (m : Stepper) :
    stepperSetDirectionRel (stepperSetDirectionRel m true) false =
      stepperSetDirectionRel m false := rfl

/-- Changing direction twice (first to positive, then to negative) has the
same effect on the motor list as changing it once to negative. -/
theorem map_dir_false_after_true (ms : List Stepper) :
    (ms.map fun m => stepperSetDirectionRel m true).map
        (fun m => stepperSetDirectionRel m false) =
      ms.map fun m => stepperSetDirectionRel m false := by
  rw [List.map_map]
  apply List.map_congr_left
  intro m _
  exact setDirRel_override m

/-- The unit conversion ignores the direction of the motors and the
`reset_dir` latch. -/
theorem mm_to_steps_congr (ms : List Stepper) (mm2 : Nat) (rd rd2 b : Bool)
    (q : ℚ) :
    mm_to_steps ⟨ms.map fun m => stepperSetDirectionRel m b, mm2, rd⟩ q =
      mm_to_steps ⟨ms, mm2, rd2⟩ q := by
  unfold mm_to_steps microsteps0
  cases ms <;> rfl

/-- C6: `axis_move(axis, d)` returns success with no state change when
`d = 0`; when `d < 0` it ends with the direction set to relative negative and
the latch set (after first undoing a pending latch), passing
`mm_to_steps(|d|)` steps to `step_multiple`; when `d > 0` it clears a pending
latch (restoring the positive direction) or leaves the axis untouched, and
passes `mm_to_steps(d)` steps to `step_multiple`. -/
theorem C6_axis_move_behavior (a : AxisSt) (d : ℚ) :
    (d = 0 → axis_move a d = (0, a, none)) ∧
    (d < 0 → axis_move a d =
      (0, axis_set_direction { a with resetDir := true } false,
        some (mm_to_steps a (-d)))) ∧
    (0 < d → axis_move a d =
      (0,
        if a.resetDir then axis_set_direction { a with resetDir := false } true
        else a,
        some (mm_to_steps a d))) := by
  obtain ⟨ms, mmrot, rd⟩ := a
  refine ⟨?_, ?_, ?_⟩
  · intro h
    simp [axis_move, h]
  · intro h
    have h0 : ¬d = 0 := ne_of_lt h
    cases rd with
    | false =>
      simp only [axis_move, if_neg h0, if_pos h]
      exact Prod.ext rfl (Prod.ext rfl
        (congrArg some (mm_to_steps_congr ms mmrot true false false (-d))))
    | true =>
      simp only [axis_move, if_neg h0, if_pos h]
      refine Prod.ext rfl (Prod.ext ?_ ?_)
      · exact congrArg (fun l => AxisSt.mk l mmrot true)
          (map_dir_false_after_true ms)
      · exact congrArg some
          ((mm_to_steps_congr (ms.map fun m => stepperSetDirectionRel m true)
              mmrot true true false (-d)).trans
            (mm_to_steps_congr ms mmrot true true true (-d)))
  · intro h
    have h0 : ¬d = 0 := ne_of_gt h
    have h1 : ¬d < 0 := not_lt.mpr (le_of_lt h)
    cases rd with
    | false =>
      simp only [axis_move, if_neg h0, if_neg h1]
      exact Prod.ext rfl (Prod.ext rfl rfl)
    | true =>
      simp only [axis_move, if_neg h0, if_neg h1]
      exact Prod.ext rfl (Prod.ext rfl
        (congrArg some (mm_to_steps_congr ms mmrot false true true d)))

theorem C6_axis_move_behavior_witness :
    ((-2 : ℚ) = 0 →
      axis_move ⟨[⟨true, true, 0, 200, 0, false⟩], 16, true⟩ (-2) =
        (0, ⟨[⟨true, true, 0, 200, 0, false⟩], 16, true⟩, none)) ∧
    ((-2 : ℚ) < 0 →
      axis_move ⟨[⟨true, true, 0, 200, 0, false⟩], 16, true⟩ (-2) =
        (0,
          axis_set_direction
            ⟨[⟨true, true, 0, 200, 0, false⟩], 16, true⟩ false,
          some (mm_to_steps ⟨[⟨true, true, 0, 200, 0, false⟩], 16, true⟩
            (-(-2))))) ∧
    ((0 : ℚ) < -2 →
      axis_move ⟨[⟨true, true, 0, 200, 0, false⟩], 16, true⟩ (-2) =
        (0,
          if (⟨[⟨true, true, 0, 200, 0, false⟩], 16, true⟩ : AxisSt).resetDir then
            axis_set_direction ⟨[⟨true, true, 0, 200, 0, false⟩], 16, false⟩ true
          else ⟨[⟨true, true, 0, 200, 0, false⟩], 16, true⟩,
          some (mm_to_steps ⟨[⟨true, true, 0, 200, 0, false⟩], 16, true⟩ (-2)))) :=
  C6_axis_move_behavior ⟨[⟨true, true, 0, 200, 0, false⟩], 16, true⟩ (-2)

/-- A bounded `strncmp` against a full keyword tests exactly whether the
keyword is a prefix of the probed string. -/
theorem cstrEqN_iff_isPrefix (s t : List Char) (n : Nat) (h : n = t.length) :
    cstrEqN s t n = true ↔ t <+: s := by
  subst h
  unfold cstrEqN
  rw [beq_iff_eq, List.take_length, List.prefix_iff_eq_take]
  exact eq_comm

/-- The validation loop of `state_check_param` finds no match exactly when
every bounded comparison fails. -/
theorem checkParamLoop_eq_none (buf : List Char) :
    ∀ plist : List (List Char × Nat × ParamT),
      (checkParamLoop buf plist = none ↔
        ∀ e ∈ plist, cstrEqN buf e.1 e.2.1 = false) := by
  intro plist
  induction plist with
  | nil => simp [checkParamLoop]
  | cons e rest ih =>
    obtain ⟨p, len, pid⟩ := e
    by_cases h : cstrEqN buf p len = true
    · constructor
      · intro hc
        rw [show checkParamLoop buf ((p, len, pid) :: rest) = some pid from by
          simp [checkParamLoop, h]] at hc
        exact absurd hc (by simp)
      · intro hall
        exact absurd (hall (p, len, pid) (List.mem_cons_self _ _)) (by simp [h])
    · have hskip : checkParamLoop buf ((p, len, pid) :: rest) =
          checkParamLoop buf rest := by simp [checkParamLoop, h]
      rw [hskip, ih]
      constructor
      · intro hall e he
        rcases List.mem_cons.mp he with rfl | hmem
        · exact Bool.eq_false_iff.mpr h
        · exact hall e hmem
      · intro hall e he
        exact hall e (List.mem_cons_of_mem _ he)

/-- The validation loop finds a match whenever some bounded comparison
succeeds. -/
theorem checkParamLoop_isSome (buf : List Char) :
    ∀ plist : List (List Char × Nat × ParamT),
      (∃ e ∈ plist, cstrEqN buf e.1 e.2.1 = true) →
      ∃ pid, checkParamLoop buf plist = some pid := by
  intro plist
  induction plist with
  | nil =>
    rintro ⟨e, he, _⟩
    simp at he
  | cons e rest ih =>
    obtain ⟨p, len, pid⟩ := e
    rintro ⟨e2, he2, hh⟩
    by_cases h : cstrEqN buf p len = true
    · exact ⟨pid, by simp [checkParamLoop, h]⟩
    · rcases List.mem_cons.mp he2 with rfl | hmem
      · exact absurd hh h
      · obtain ⟨pid2, hp2⟩ := ih ⟨e2, hmem, hh⟩
        exact ⟨pid2, by simp [checkParamLoop, h, hp2]⟩

/-- C7: an axis `motors` parameter naming a motor that was not defined earlier
makes the parser fail.  First conjunct: in any machine state, when the
motor-list state scans a well-formed nonempty name whose lookup in the motor
list fails, it enters `ERROR` with the diagnostic naming that motor.  Second
and third conjuncts: on the S6 file (motor `a`, then an axis with
`motors=a,b`), the state machine stops with an error whose message names `b`,
and `read_motor_config` returns `-1` constructing no objects. -/
theorem C7_unknown_motor_rejected :
    (∀ (f : Nat) (st : Machine),
      (scanMotorNameAux st.line []).code ≠ MLCode.errorScan →
      (scanMotorNameAux st.line []).buf ≠ [] →
      findMotorIdx st.motors (scanMotorNameAux st.line []).buf = none →
      (motorListLoop (f + 1) st).pstate = PState.error ∧
      (motorListLoop (f + 1) st).errStr =
        msgMotorNotFound (scanMotorNameAux st.line []).buf) ∧
    ((motor_config_state_machine s6ConfigFile 200).map fun p =>
        (p.1, p.2.errStr)) =
      some (1, "Motor b not found before axis definition in motor.conf".data) ∧
    read_motor_config s6ConfigFile 200 = some (-1, none) := by
  refine ⟨?_, by decide, by decide⟩
  intro f st hcode hbuf hnone
  unfold motorListLoop
  rw [if_neg hcode, if_pos (by simpa using List.length_pos.mpr hbuf)]
  simp [hnone]

theorem C7_unknown_motor_rejected_witness :
    (motorListLoop (0 + 1) w7Machine).pstate = PState.error ∧
    (motorListLoop (0 + 1) w7Machine).errStr =
      msgMotorNotFound (scanMotorNameAux w7Machine.line []).buf :=
  C7_unknown_motor_rejected.1 0 w7Machine (by decide) (by decide) (by decide)

/-- C8 counterexample: the section identifier `motorx` (not exactly `motor`
or `axis`) is accepted as a motor section instead of erroring, and the key
`namefoo` (not a valid parameter name) is accepted as `name` inside a motor
section instead of erroring. -/
theorem C8_prefix_counterexample :
    (state_set_identifier "motorx".data (initMachine [])).pstate =
      PState.cleanup ∧
    (state_set_identifier "motorx".data (initMachine [])).lastId =
      IdentT.motor ∧
    (state_check_param "namefoo".data IdentT.motor (initMachine [])).pstate =
      PState.readValue ∧
    (state_check_param "namefoo".data IdentT.motor (initMachine [])).paramId =
      ParamT.motorName := by
  refine ⟨?_, ?_, ?_, ?_⟩ <;> decide

/-- C8 (amended): keys and section identifiers are compared with `strncmp`
bounded by the length of the valid name, i.e. by prefix.  A section identifier
is rejected (ERROR state) iff neither `motor` nor `axis` is a prefix of it,
and a key is rejected iff neither `motors` nor any valid parameter name of the
section is a prefix of it; strings merely extending a valid name, such as
`motorx` or `namefoo`, are accepted as that name. -/
theorem C8_prefix_matching (s : List Char) (st : Machine) :
    ((¬"motor".data <+: s) → (¬"axis".data <+: s) →
      (state_set_identifier s st).pstate = PState.error) ∧
    ("motor".data <+: s →
      (state_set_identifier s st).pstate = PState.cleanup ∧
      (state_set_identifier s st).lastId = IdentT.motor) ∧
    ((¬"motor".data <+: s) → "axis".data <+: s →
      (state_set_identifier s st).pstate = PState.cleanup ∧
      (state_set_identifier s st).lastId = IdentT.axis) ∧
    (((¬"motors".data <+: s) ∧ ∀ p ∈ motorParams, ¬p.1 <+: s) →
      (state_check_param s IdentT.motor st).pstate = PState.error) ∧
    (("motors".data <+: s ∨ ∃ p ∈ motorParams, p.1 <+: s) →
      (state_check_param s IdentT.motor st).pstate ≠ PState.error) ∧
    (((¬"motors".data <+: s) ∧ ∀ p ∈ axisParams, ¬p.1 <+: s) →
      (state_check_param s IdentT.axis st).pstate = PState.error) ∧
    (("motors".data <+: s ∨ ∃ p ∈ axisParams, p.1 <+: s) →
      (state_check_param s IdentT.axis st).pstate ≠ PState.error) := by
  have hmotor : ∀ e ∈ motorParams, e.2.1 = e.1.length := by decide
  have haxis : ∀ e ∈ axisParams, e.2.1 = e.1.length := by decide
  refine ⟨?_, ?_, ?_, ?_, ?_, ?_, ?_⟩
  · intro h1 h2
    have e1 : ¬cstrEqN s "motor".data 5 = true :=
      fun hh => h1 ((cstrEqN_iff_isPrefix s "motor".data 5 (by rfl)).mp hh)
    have e2 : ¬cstrEqN s "axis".data 4 = true :=
      fun hh => h2 ((cstrEqN_iff_isPrefix s "axis".data 4 (by rfl)).mp hh)
    simp [state_set_identifier, e1, e2]
  · intro h1
    have e1 : cstrEqN s "motor".data 5 = true :=
      (cstrEqN_iff_isPrefix s "motor".data 5 (by rfl)).mpr h1
    simp [state_set_identifier, e1]
  · intro h1 h2
    have e1 : ¬cstrEqN s "motor".data 5 = true :=
      fun hh => h1 ((cstrEqN_iff_isPrefix s "motor".data 5 (by rfl)).mp hh)
    have e2 : cstrEqN s "axis".data 4 = true :=
      (cstrEqN_iff_isPrefix s "axis".data 4 (by rfl)).mpr h2
    simp [state_set_identifier, e1, e2]
  · rintro ⟨h1, h2⟩
    have e1 : ¬cstrEqN s "motors".data 6 = true :=
      fun hh => h1 ((cstrEqN_iff_isPrefix s "motors".data 6 (by rfl)).mp hh)
    have e2 : checkParamLoop s motorParams = none :=
      (checkParamLoop_eq_none s motorParams).mpr fun e he =>
        Bool.eq_false_iff.mpr fun hh =>
          h2 e he ((cstrEqN_iff_isPrefix s e.1 e.2.1 (hmotor e he)).mp hh)
    simp [state_check_param, e1, e2]
  · rintro (h1 | ⟨p, hp, hpre⟩)
    · have e1 : cstrEqN s "motors".data 6 = true :=
        (cstrEqN_iff_isPrefix s "motors".data 6 (by rfl)).mpr h1
      simp [state_check_param, e1]
    · by_cases e1 : cstrEqN s "motors".data 6 = true
      · simp [state_check_param, e1]
      · obtain ⟨pid, hp2⟩ := checkParamLoop_isSome s motorParams
          ⟨p, hp, (cstrEqN_iff_isPrefix s p.1 p.2.1 (hmotor p hp)).mpr hpre⟩
        simp [state_check_param, e1, hp2]
  · rintro ⟨h1, h2⟩
    have e1 : ¬cstrEqN s "motors".data 6 = true :=
      fun hh => h1 ((cstrEqN_iff_isPrefix s "motors".data 6 (by rfl)).mp hh)
    have e2 : checkParamLoop s axisParams = none :=
      (checkParamLoop_eq_none s axisParams).mpr fun e he =>
        Bool.eq_false_iff.mpr fun hh =>
          h2 e he ((cstrEqN_iff_isPrefix s e.1 e.2.1 (haxis e he)).mp hh)
    simp [state_check_param, e1, e2]
  · rintro (h1 | ⟨p, hp, hpre⟩)
    · have e1 : cstrEqN s "motors".data 6 = true :=
        (cstrEqN_iff_isPrefix s "motors".data 6 (by rfl)).mpr h1
      simp [state_check_param, e1]
    · by_cases e1 : cstrEqN s "motors".data 6 = true
      · simp [state_check_param, e1]
      · obtain ⟨pid, hp2⟩ := checkParamLoop_isSome s axisParams
          ⟨p, hp, (cstrEqN_iff_isPrefix s p.1 p.2.1 (haxis p hp)).mpr hpre⟩
        simp [state_check_param, e1, hp2]

theorem C8_prefix_matching_witness :
    (state_set_identifier "foo".data (initMachine [])).pstate =
      PState.error ∧
    (state_check_param "zzz".data IdentT.motor (initMachine [])).pstate =
      PState.error :=
  ⟨(C8_prefix_matching "foo".data (initMachine [])).1 (by decide) (by decide),
   (C8_prefix_matching "zzz".data (initMachine [])).2.2.2.1
     ⟨by decide, by decide⟩⟩

/-- C9: evaluation of the parser at the failing input.  On a file with nine
`[motor]` section headers (the ninth followed by `name=m9`), the state machine
finishes without error with `motor_list_len = 9 > 8`, and the ninth `name`
write lands in the ninth list entry — in the C code a write to
`motor_list[8]`, one past the end of the 8-entry array — instead of the ninth
section being treated as an error. -/
theorem C9_ninth_motor_accepted :
    ((motor_config_state_machine nineMotorFile 200).map fun p =>
        (p.1, p.2.motors.length, p.2.motors.getLast?.map fun m => m.name)) =
      some (0, 9, some "m9".data) ∧
    ((motor_config_state_machine nineMotorFile 200).map fun p =>
        decide (p.2.motors.length ≤ MOTOR_LIST_SIZE_MAX)) = some false := by
  exact ⟨by decide, by decide⟩

end CNCRobot
